import Mathlib

/-!
Verification of the Numeric Aggregator component: the pure utility
functions of src/javascript-fundamentals/functions.js and
src/programming-fundamentals/javascript-fundamentals/functions.js,
shallowly embedded in Lean 4.

JavaScript numbers are modelled exactly: a finite number is a rational
(`JSNum.num`), and the special values NaN, Infinity and -Infinity are
explicit constructors.  The arithmetic operators follow the JavaScript
semantics on these values (negative zero is identified with zero, and
rounding is ignored: the inputs of the claims under verification are
exactly representable and both average implementations perform the
identical operation sequence, so the exact model is faithful for them).
-/

/-- A JavaScript number: a finite value, NaN, Infinity or -Infinity. -/
inductive JSNum where
  | num (q : ℚ)
  | nan
  | inf
  | ninf
deriving DecidableEq, Repr

namespace JSNum

/-- JavaScript unary negation. -/
def jneg : JSNum → JSNum
  | num q => num (-q)
  | nan => nan
  | inf => ninf
  | ninf => inf

/-- JavaScript addition. -/
def jadd : JSNum → JSNum → JSNum
  | nan, _ => nan
  | _, nan => nan
  | num a, num b => num (a + b)
  | num _, inf => inf
  | inf, num _ => inf
  | num _, ninf => ninf
  | ninf, num _ => ninf
  | inf, inf => inf
  | ninf, ninf => ninf
  | inf, ninf => nan
  | ninf, inf => nan

/-- JavaScript subtraction: a - b is a + (-b). -/
def jsub (a b : JSNum) : JSNum := jadd a (jneg b)

/-- JavaScript multiplication. -/
def jmul : JSNum → JSNum → JSNum
  | nan, _ => nan
  | _, nan => nan
  | num a, num b => num (a * b)
  | num a, inf => if a = 0 then nan else if 0 < a then inf else ninf
  | inf, num a => if a = 0 then nan else if 0 < a then inf else ninf
  | num a, ninf => if a = 0 then nan else if 0 < a then ninf else inf
  | ninf, num a => if a = 0 then nan else if 0 < a then ninf else inf
  | inf, inf => inf
  | inf, ninf => ninf
  | ninf, inf => ninf
  | ninf, ninf => inf

/-- JavaScript division. -/
def jdiv : JSNum → JSNum → JSNum
  | nan, _ => nan
  | _, nan => nan
  | num a, num b =>
      if b = 0 then (if a = 0 then nan else if 0 < a then inf else ninf)
      else num (a / b)
  | inf, num b => if b < 0 then ninf else inf
  | ninf, num b => if b < 0 then inf else ninf
  | num _, inf => num 0
  | num _, ninf => num 0
  | inf, inf => nan
  | inf, ninf => nan
  | ninf, inf => nan
  | ninf, ninf => nan

end JSNum

open JSNum

/-- Reading arr[i] in JavaScript: out-of-range access yields undefined,
which behaves as NaN in the arithmetic contexts the embedded code uses
it in. -/
def arrGet (l : List ℚ) (i : ℕ) : JSNum :=
  match l[i]? with
  | some q => JSNum.num q
  | none => JSNum.nan

/-- A shopping-cart record: a structured entry with an identifying
field id, a name and a quantity.  The cart functions read only id and
quantity. -/
structure Item where
  id : ℤ
  name : String
  quantity : ℕ
deriving DecidableEq, Repr

/-- function calculateAverage(numbers) \x7b
      return numbers.reduce((sum, num) => sum + num, 0) / numbers.length;
    \x7d -/
def calculateAverage (numbers : List ℚ) : JSNum :=
  jdiv (numbers.foldl (fun sum n => jadd sum (JSNum.num n)) (JSNum.num 0))
    (JSNum.num numbers.length)

/-- function calculateAverageWithLoop(numbers): accumulates total and
count over a for-of loop, then returns total / count. -/
def calculateAverageWithLoop (numbers : List ℚ) : JSNum :=
  let st := numbers.foldl
    (fun (st : JSNum × ℕ) n => (jadd st.1 (JSNum.num n), st.2 + 1))
    (JSNum.num 0, 0)
  jdiv st.1 (JSNum.num st.2)

/-- function countCartItems(cart): a for loop summing cart[i].quantity
into totalItems, starting from 0. -/
def countCartItems (cart : List Item) : ℕ :=
  cart.foldl (fun totalItems item => totalItems + item.quantity) 0

/-- function removeItemFromCart(cart, itemId) \x7b
      return cart.filter(item => item.id !== itemId);
    \x7d -/
def removeItemFromCart (cart : List Item) (itemId : ℤ) : List Item :=
  cart.filter (fun item => item.id != itemId)

/-- JavaScript Array.prototype.map with the (value, index) callback,
specialised to a numeric array: the recursion carries the current
index. -/
def mapWithIndex (f : ℚ → ℕ → JSNum) : List ℚ → ℕ → List JSNum
  | [], _ => []
  | a :: l, i => f a i :: mapWithIndex f l (i + 1)

/-- Math.pow(x, 2): squaring, on every JSNum value. -/
def jpow2 (x : JSNum) : JSNum := jmul x x

/-- function meanSquareError(actual, predicted) \x7b
      return actual.map((value, index) =>
        Math.pow(value - predicted[index], 2))
        .reduce((sum, value) => sum + value, 0) / actual.length;
    \x7d -/
def meanSquareError (actual predicted : List ℚ) : JSNum :=
  jdiv
    ((mapWithIndex
        (fun value index => jpow2 (jsub (JSNum.num value) (arrGet predicted index)))
        actual 0).foldl (fun sum v => jadd sum v) (JSNum.num 0))
    (JSNum.num actual.length)

/-- The error taxonomy of the specification. -/
inductive ErrKind where
  | invalidArgument
  | lengthMismatch
deriving DecidableEq, Repr

/-- Modelled from the spec: the specification requires average to fail
with an InvalidArgument kind on empty input instead of silently
producing a sentinel; on non-empty input it is the arithmetic mean.
The source code has no such error channel; this definition renders the
spec's words, to be compared with calculateAverage. -/
def averageSpec (numbers : List ℚ) : Except ErrKind ℚ :=
  if numbers.isEmpty then Except.error ErrKind.invalidArgument
  else Except.ok (numbers.sum / numbers.length)

example : calculateAverage [1, 2, 3, 4, 5] = JSNum.num 3 := by
  simp [calculateAverage, jadd, jdiv, List.foldl]; norm_num

example : calculateAverage [] = JSNum.nan := by
  simp [calculateAverage, jadd, jdiv, List.foldl]

example : calculateAverageWithLoop [] = JSNum.nan := by
  simp [calculateAverageWithLoop, jadd, jdiv, List.foldl]

example : meanSquareError [1, 2] [1, 4] = JSNum.num 2 := by
  simp [meanSquareError, mapWithIndex, arrGet, jpow2, jadd, jsub, jneg, jmul,
    jdiv, List.foldl]
  norm_num

/-! Helper lemmas: the JavaScript folds, on finite inputs, compute the
exact rational sums. -/

theorem foldl_jadd_num (l : List ℚ) : ∀ a : ℚ,
    l.foldl (fun sum n => jadd sum (JSNum.num n)) (JSNum.num a)
      = JSNum.num (a + l.sum) := by
  induction l with
  | nil => intro a; simp
  | cons x xs ih =>
    intro a
    rw [List.foldl_cons, List.sum_cons]
    exact (ih (a + x)).trans (by rw [add_assoc])

theorem foldl_loop_step (l : List ℚ) : ∀ (a : ℚ) (c : ℕ),
    l.foldl (fun (st : JSNum × ℕ) n => (jadd st.1 (JSNum.num n), st.2 + 1))
      (JSNum.num a, c)
      = (JSNum.num (a + l.sum), c + l.length) := by
  induction l with
  | nil => intro a c; simp
  | cons x xs ih =>
    intro a c
    rw [List.foldl_cons, List.sum_cons, List.length_cons]
    refine (ih (a + x) (c + 1)).trans ?_
    have h2 : c + 1 + xs.length = c + (xs.length + 1) := by omega
    rw [add_assoc, h2]

theorem foldl_jadd_map_num (l : List ℚ) : ∀ a : ℚ,
    (l.map JSNum.num).foldl (fun sum v => jadd sum v) (JSNum.num a)
      = JSNum.num (a + l.sum) := by
  induction l with
  | nil => intro a; simp
  | cons x xs ih =>
    intro a
    rw [List.map_cons, List.foldl_cons, List.sum_cons]
    exact (ih (a + x)).trans (by rw [add_assoc])

theorem foldl_add_quantity (cart : List Item) : ∀ a : ℕ,
    cart.foldl (fun totalItems item => totalItems + item.quantity) a
      = a + (cart.map Item.quantity).sum := by
  induction cart with
  | nil => intro a; simp
  | cons i is ih =>
    intro a
    rw [List.foldl_cons, List.map_cons, List.sum_cons]
    exact (ih (a + i.quantity)).trans (by rw [add_assoc])

theorem length_removeItem_aux (R : List Item) (x : ℤ) :
    (removeItemFromCart R x).length + R.countP (fun r => r.id == x)
      = R.length := by
  unfold removeItemFromCart
  induction R with
  | nil => simp
  | cons r rs ih =>
    rw [List.filter_cons, List.countP_cons, List.length_cons]
    by_cases h : r.id = x
    · have hb : (r.id != x) = false := by simp [h]
      have hb2 : (r.id == x) = true := by simp [h]
      rw [hb, hb2, if_neg (by simp), if_pos rfl]
      omega
    · have hb : (r.id != x) = true := by simp [h]
      have hb2 : (r.id == x) = false := by simp [h]
      rw [hb, hb2, if_pos rfl, if_neg (by simp), List.length_cons]
      omega

theorem count_removeItem_aux (R : List Item) (x : ℤ) (r : Item) :
    (removeItemFromCart R x).count r
      = if r.id = x then 0 else R.count r := by
  unfold removeItemFromCart
  by_cases hr : r.id = x
  · rw [if_pos hr]
    refine List.count_eq_zero.mpr ?_
    intro hmem
    rw [List.mem_filter] at hmem
    simp [hr] at hmem
  · rw [if_neg hr]
    exact List.count_filter (by simp [hr])

theorem mapWithIndex_sq (actual : List ℚ) : ∀ (suf pre : List ℚ),
    actual.length = suf.length →
    mapWithIndex
      (fun value index =>
        jpow2 (jsub (JSNum.num value) (arrGet (pre ++ suf) index)))
      actual pre.length
    = (List.zipWith (fun a p => (a - p) ^ 2) actual suf).map JSNum.num := by
  induction actual with
  | nil => intro suf pre _; simp [mapWithIndex]
  | cons a as ih =>
    intro suf pre h
    cases suf with
    | nil => simp at h
    | cons b bs =>
      have h' : as.length = bs.length := by simpa using h
      have hget : arrGet (pre ++ b :: bs) pre.length = JSNum.num b := by
        unfold arrGet
        rw [List.getElem?_append_right (Nat.le_refl _)]
        simp
      simp only [mapWithIndex, List.zipWith_cons_cons, List.map_cons,
        List.cons.injEq]
      constructor
      · rw [hget]
        show JSNum.num ((a + -b) * (a + -b)) = JSNum.num ((a - b) ^ 2)
        rw [← sub_eq_add_neg, sq]
      · rw [show pre ++ b :: bs = (pre ++ [b]) ++ bs by simp,
          show pre.length + 1 = (pre ++ [b]).length by simp]
        exact ih bs (pre ++ [b]) h'

/-! The claims. -/

/-- C1, counterexample: the claim says average([]) raises/reports an
InvalidArgument failure.  The specification side (averageSpec) does
report that failure, but the code's calculateAverage has no error
channel at all: applied to the empty sequence it silently evaluates
0 / 0 and returns the NaN sentinel, so no InvalidArgument failure is
raised. -/
theorem calculateAverage_empty_no_failure :
    calculateAverage [] = JSNum.nan
      ∧ averageSpec ([] : List ℚ) = Except.error ErrKind.invalidArgument :=
  ⟨by simp [calculateAverage, jdiv, List.foldl], by simp [averageSpec]⟩

/-- C1, amended: applied to the empty sequence, both average
implementations silently return the NaN sentinel; they raise no
failure, and they never return 0. -/
theorem calculateAverage_empty_returns_nan :
    calculateAverage [] = JSNum.nan
      ∧ calculateAverageWithLoop [] = JSNum.nan
      ∧ JSNum.nan ≠ JSNum.num 0 := by
  refine ⟨?_, ?_, by simp⟩
  · simp [calculateAverage, jdiv, List.foldl]
  · simp [calculateAverageWithLoop, jdiv, List.foldl]

/-- C2: on every non-empty sequence of numbers, the fold/reduce
implementation (calculateAverage) and the loop-accumulation
implementation (calculateAverageWithLoop) return identical results:
both perform the same left-to-right addition sequence and divide by
the element count. -/
theorem calculateAverage_eq_loop (numbers : List ℚ) (h : numbers ≠ []) :
    calculateAverage numbers = calculateAverageWithLoop numbers := by
  clear h
  simp only [calculateAverage, calculateAverageWithLoop, foldl_jadd_num,
    foldl_loop_step, zero_add, Nat.zero_add]

/-- Witness for C2 at the concrete input [1, 2, 3]. -/
theorem calculateAverage_eq_loop_witness :
    ([1, 2, 3] : List ℚ) ≠ []
      ∧ calculateAverage [1, 2, 3] = calculateAverageWithLoop [1, 2, 3] :=
  ⟨by simp, calculateAverage_eq_loop [1, 2, 3] (by simp)⟩

/-- C3: removeItemFromCart R x is a stable filter: its output is a
sublist of R (so the relative order of R is preserved and every output
record comes from R), and it holds exactly the records of R whose id
differs from x, with their multiplicities.  The input R itself is
untouched: Array.prototype.filter allocates a new array, which the
embedding reflects by being a pure function of R. -/
theorem removeItemFromCart_stable_filter (R : List Item) (x : ℤ) :
    List.Sublist (removeItemFromCart R x) R
      ∧ ∀ r : Item, (removeItemFromCart R x).count r
          = if r.id = x then 0 else R.count r :=
  ⟨List.filter_sublist R, fun r => count_removeItem_aux R x r⟩

/-- C4: on equal-length non-empty inputs, meanSquareError returns the
arithmetic mean of the squared positional differences. -/
theorem meanSquareError_spec (actual predicted : List ℚ)
    (hlen : actual.length = predicted.length) (hne : actual ≠ []) :
    meanSquareError actual predicted
      = JSNum.num
          ((List.zipWith (fun a p => (a - p) ^ 2) actual predicted).sum
            / (actual.length : ℚ)) := by
  have hm := mapWithIndex_sq actual predicted [] hlen
  simp only [List.nil_append, List.length_nil] at hm
  unfold meanSquareError
  rw [hm, foldl_jadd_map_num, zero_add]
  have hL0 : actual.length ≠ 0 := fun hz => hne (List.length_eq_zero.mp hz)
  have hL : ((actual.length : ℚ)) ≠ 0 := Nat.cast_ne_zero.mpr hL0
  simp only [jdiv, if_neg hL]

/-- Witness for C4 at actual = [1, 2], predicted = [1, 4]: the mean of
the squared differences is (0 + 4) / 2 = 2. -/
theorem meanSquareError_spec_witness :
    ([1, 2] : List ℚ).length = ([1, 4] : List ℚ).length
      ∧ ([1, 2] : List ℚ) ≠ []
      ∧ meanSquareError [1, 2] [1, 4]
          = JSNum.num
              ((List.zipWith (fun a p => (a - p) ^ 2)
                  ([1, 2] : List ℚ) [1, 4]).sum
                / (([1, 2] : List ℚ).length : ℚ)) :=
  ⟨rfl, by simp, meanSquareError_spec [1, 2] [1, 4] rfl (by simp)⟩

/-- C5: countCartItems returns the sum of the quantity fields; the
empty cart yields 0, and a cart with quantities 2, 1, 3 yields 6. -/
theorem countCartItems_spec :
    (∀ cart : List Item,
        countCartItems cart = (cart.map Item.quantity).sum)
      ∧ countCartItems [] = 0
      ∧ countCartItems
          [⟨1, "T-shirt", 2⟩, ⟨2, "Jeans", 1⟩, ⟨3, "Socks", 3⟩] = 6 := by
  refine ⟨fun cart => ?_, rfl, rfl⟩
  simpa [countCartItems] using foldl_add_quantity cart 0

/-- C6: when the identifier x occurs in exactly one record of R,
removeItemFromCart R x has length R.length - 1. -/
theorem removeById_present_once_length (R : List Item) (x : ℤ)
    (h : R.countP (fun r => r.id == x) = 1) :
    (removeItemFromCart R x).length = R.length - 1 := by
  have := length_removeItem_aux R x
  omega

/-- Witness for C6 at a two-record cart whose first record has the
removed id. -/
theorem removeById_present_once_length_witness :
    ([⟨1, "a", 1⟩, ⟨2, "b", 1⟩] : List Item).countP
        (fun r => r.id == (1 : ℤ)) = 1
      ∧ (removeItemFromCart [⟨1, "a", 1⟩, ⟨2, "b", 1⟩] 1).length
          = ([⟨1, "a", 1⟩, ⟨2, "b", 1⟩] : List Item).length - 1 :=
  ⟨by decide, removeById_present_once_length _ 1 (by decide)⟩

/-- C7: when no record of R carries the identifier x, the filter keeps
every record, so removeItemFromCart R x equals R by value. -/
theorem removeById_absent (R : List Item) (x : ℤ)
    (h : ∀ r ∈ R, r.id ≠ x) :
    removeItemFromCart R x = R := by
  unfold removeItemFromCart
  refine List.filter_eq_self.mpr ?_
  intro a ha
  simpa using h a ha

/-- Witness for C7 at a one-record cart and an id it does not hold. -/
theorem removeById_absent_witness :
    (∀ r ∈ ([⟨1, "a", 1⟩] : List Item), r.id ≠ (2 : ℤ))
      ∧ removeItemFromCart [⟨1, "a", 1⟩] 2 = [⟨1, "a", 1⟩] :=
  ⟨by decide, removeById_absent _ 2 (by decide)⟩

/-- C8: when the identifier x occurs in exactly k records of R,
removeItemFromCart R x removes all k of them — no record with id x
survives — and its length is R.length - k. -/
theorem removeById_removes_all (R : List Item) (x : ℤ) (k : ℕ)
    (hk : R.countP (fun r => r.id == x) = k) :
    (removeItemFromCart R x).length = R.length - k
      ∧ ∀ r ∈ removeItemFromCart R x, r.id ≠ x := by
  constructor
  · have := length_removeItem_aux R x
    omega
  · intro r hr
    unfold removeItemFromCart at hr
    rw [List.mem_filter] at hr
    simpa using hr.2

/-- Witness for C8 at a three-record cart in which id 1 occurs twice:
both matching records are removed, not only the first. -/
theorem removeById_removes_all_witness :
    ([⟨1, "a", 1⟩, ⟨2, "b", 1⟩, ⟨1, "c", 2⟩] : List Item).countP
        (fun r => r.id == (1 : ℤ)) = 2
      ∧ ((removeItemFromCart [⟨1, "a", 1⟩, ⟨2, "b", 1⟩, ⟨1, "c", 2⟩] 1).length
            = ([⟨1, "a", 1⟩, ⟨2, "b", 1⟩, ⟨1, "c", 2⟩] : List Item).length - 2
          ∧ ∀ r ∈ removeItemFromCart
              [⟨1, "a", 1⟩, ⟨2, "b", 1⟩, ⟨1, "c", 2⟩] 1, r.id ≠ (1 : ℤ)) :=
  ⟨by decide, removeById_removes_all _ 1 2 (by decide)⟩

/-- C9: the three concrete averages of the specification:
average [1,2,3,4,5] = 3, average [1.5,2.5,3.5] = 2.5 and
average [42] = 42. -/
theorem calculateAverage_examples :
    calculateAverage [1, 2, 3, 4, 5] = JSNum.num 3
      ∧ calculateAverage [(1.5 : ℚ), 2.5, 3.5] = JSNum.num 2.5
      ∧ calculateAverage [42] = JSNum.num 42 := by
  refine ⟨?_, ?_, ?_⟩
  · simp [calculateAverage, jadd, jdiv, List.foldl]
    norm_num
  · simp [calculateAverage, jadd, jdiv, List.foldl]
    norm_num
  · simp [calculateAverage, jadd, jdiv, List.foldl]

/-- C10: every operation of the Numeric Aggregator is deterministic:
invocations on equal inputs return equal outputs (the embedded
operations are pure functions of their arguments). -/
theorem aggregator_deterministic (S S2 : List ℚ) (R R2 : List Item)
    (x x2 : ℤ) (a a2 p p2 : List ℚ)
    (hS : S = S2) (hR : R = R2) (hx : x = x2) (ha : a = a2) (hp : p = p2) :
    calculateAverage S = calculateAverage S2
      ∧ calculateAverageWithLoop S = calculateAverageWithLoop S2
      ∧ countCartItems R = countCartItems R2
      ∧ removeItemFromCart R x = removeItemFromCart R2 x2
      ∧ meanSquareError a p = meanSquareError a2 p2 := by
  subst hS hR hx ha hp
  exact ⟨rfl, rfl, rfl, rfl, rfl⟩

/-- Witness for C10 at concrete inputs. -/
theorem aggregator_deterministic_witness :
    ([1] : List ℚ) = [1]
      ∧ (calculateAverage [1] = calculateAverage [1]
          ∧ calculateAverageWithLoop [1] = calculateAverageWithLoop [1]
          ∧ countCartItems [] = countCartItems []
          ∧ removeItemFromCart [] 0 = removeItemFromCart [] 0
          ∧ meanSquareError [1] [1] = meanSquareError [1] [1]) :=
  ⟨rfl, aggregator_deterministic [1] [1] [] [] 0 0 [1] [1] [1] [1]
    rfl rfl rfl rfl rfl⟩
